import Mathlib

/-!
Shallow embedding of `src/markter.py` (the Markter fetch orchestrator):
a persistent TTL cache, a process-wide rate limiter, an upstream search
client with retry/backoff, and the `fetch_ebay_sold` orchestrator.

Modelling conventions:
* Python floats for wall-clock times are modelled by `ℚ`; `int(x)` on a
  non-negative float is `⌊x⌋`.
* Python dicts with a fixed set of possible keys are modelled by
  structures of `Option`-valued fields (`none` = key absent).
* The sqlite cache table is a function from key strings to optional rows;
  JSON (de)serialisation of payloads round-trips, so a stored payload is
  either a parsed document or `none` (a blob `json.loads` rejects).
* The network is a parameter: `resp : ℕ → Response` gives the HTTP
  response that attempt number `n` of the upstream call would observe.
* Machine-word arithmetic inside SHA-256 is `ℕ` with explicit `% 2^32`.
-/

/-! ## Settings (src/markter.py lines 22-26) -/

def TTL_SECONDS_DEFAULT : ℕ := 6 * 60 * 60

def TTL_SECONDS_FALLBACK : ℕ := 24 * 60 * 60

def MIN_SECONDS_BETWEEN_CALLS : ℚ := 2

def MAX_CALLS_PER_DAY : ℕ := 200

/-! ## Rate limiter (src/markter.py lines 39-66)

Globals `_last_call_ts`, `_day_key`, `_day_calls` become an explicit
state record; `time.time()` and `_today_key_local()` become the `now`
and `tk` parameters of `limiter_allow`. -/

structure LimiterState where
  last_call_ts : ℚ
  day_key : Option String
  day_calls : ℕ
deriving DecidableEq, Repr

/-- Initial global limiter state (lines 41-43). -/
def limiterInit : LimiterState :=
  { last_call_ts := 0, day_key := none, day_calls := 0 }

/-- The dict returned by `_limiter_allow` as second component:
`none` fields are keys absent from the dict. -/
structure LimDbg where
  reason : Option String := none
  day_calls : Option ℕ := none
  day_cap : Option ℕ := none
  retry_after_seconds : Option ℤ := none
deriving DecidableEq, Repr

/-- Lazy day rollover (lines 55-58): on a day-key change, reset the
counters before evaluating the request. -/
def limiter_reset (tk : String) (s : LimiterState) : LimiterState :=
  if s.day_key ≠ some tk then
    { day_key := some tk, day_calls := 0, last_call_ts := 0 }
  else s

/-- `_limiter_allow` (lines 50-66).  `int(wait_needed)` truncates a
non-negative float toward zero, i.e. is `⌊wait_needed⌋`. -/
def limiter_allow (now : ℚ) (tk : String) (s : LimiterState) :
    (Bool × LimDbg) × LimiterState :=
  let s1 := limiter_reset tk s
  let wait_needed : ℚ := max 0 (MIN_SECONDS_BETWEEN_CALLS - (now - s1.last_call_ts))
  if MAX_CALLS_PER_DAY ≤ s1.day_calls then
    ((false, { reason := some "daily_cap", day_calls := some s1.day_calls,
               day_cap := some MAX_CALLS_PER_DAY }), s1)
  else if 0 < wait_needed then
    ((false, { reason := some "min_interval",
               retry_after_seconds := some (⌊wait_needed⌋ + 1) }), s1)
  else
    let s2 : LimiterState :=
      { s1 with last_call_ts := now, day_calls := s1.day_calls + 1 }
    ((true, { day_calls := some s2.day_calls,
              day_cap := some MAX_CALLS_PER_DAY }), s2)

/-! ## SHA-256 (for `_cache_key`, line 92: `hashlib.sha256(...).hexdigest()`)

A direct executable FIPS 180-4 implementation over byte lists. -/

def sha_K : List ℕ :=
  [1116352408, 1899447441, 3049323471, 3921009573, 961987163,
   1508970993, 2453635748, 2870763221, 3624381080, 310598401,
   607225278, 1426881987, 1925078388, 2162078206, 2614888103,
   3248222580, 3835390401, 4022224774, 264347078, 604807628,
   770255983, 1249150122, 1555081692, 1996064986, 2554220882,
   2821834349, 2952996808, 3210313671, 3336571891, 3584528711,
   113926993, 338241895, 666307205, 773529912, 1294757372,
   1396182291, 1695183700, 1986661051, 2177026350, 2456956037,
   2730485921, 2820302411, 3259730800, 3345764771, 3516065817,
   3600352804, 4094571909, 275423344, 430227734, 506948616,
   659060556, 883997877, 958139571, 1322822218, 1537002063,
   1747873779, 1955562222, 2024104815, 2227730452, 2361852424,
   2428436474, 2756734187, 3204031479, 3329325298]

def sha_H0 : List ℕ :=
  [1779033703, 3144134277, 1013904242, 2773480762,
   1359893119, 2600822924, 528734635, 1541459225]

def M32 : ℕ := 4294967296

def rotr32 (x n : ℕ) : ℕ := ((x >>> n) ||| (x <<< (32 - n))) % M32

def shaCh (x y z : ℕ) : ℕ := (x &&& y) ^^^ ((x ^^^ 4294967295) &&& z)

def shaMaj (x y z : ℕ) : ℕ := (x &&& y) ^^^ (x &&& z) ^^^ (y &&& z)

def xor3 (a b c : ℕ) : ℕ := a ^^^ b ^^^ c

def bsig0 (x : ℕ) : ℕ := xor3 (rotr32 x 2) (rotr32 x 13) (rotr32 x 22)

def bsig1 (x : ℕ) : ℕ := xor3 (rotr32 x 6) (rotr32 x 11) (rotr32 x 25)

def ssig0 (x : ℕ) : ℕ := xor3 (rotr32 x 7) (rotr32 x 18) (x >>> 3)

def ssig1 (x : ℕ) : ℕ := xor3 (rotr32 x 17) (rotr32 x 19) (x >>> 10)

/-- Big-endian 8-byte encoding of the bit length. -/
def be64 (n : ℕ) : List ℕ :=
  [(n >>> 56) % 256, (n >>> 48) % 256, (n >>> 40) % 256, (n >>> 32) % 256,
   (n >>> 24) % 256, (n >>> 16) % 256, (n >>> 8) % 256, n % 256]

/-- Append `0x80`, zero padding to 56 mod 64 bytes, then the bit length. -/
def shaPad (msg : List ℕ) : List ℕ :=
  msg ++ [128] ++ List.replicate ((55 + 64 - msg.length % 64) % 64) 0
      ++ be64 (8 * msg.length)

def be32of (a b c d : ℕ) : ℕ := (a <<< 24) ||| (b <<< 16) ||| (c <<< 8) ||| d

def toWords : List ℕ → List ℕ
  | a :: b :: c :: d :: rest => be32of a b c d :: toWords rest
  | _ => []

/-- Group a word list into blocks of 16 (fuel-driven structural recursion;
the fuel `n` always suffices because each step drops at least one element). -/
def chunksAux : ℕ → List ℕ → List (List ℕ)
  | 0, _ => []
  | _ + 1, [] => []
  | n + 1, ws => ws.take 16 :: chunksAux n (ws.drop 16)

def chunks16 (ws : List ℕ) : List (List ℕ) := chunksAux ws.length ws

/-- Extend the 16 block words to the 64-entry message schedule. -/
def shaExtend (w : Array ℕ) : Array ℕ :=
  (List.range 48).foldl
    (fun w i =>
      w.push ((ssig1 (w.getD (i + 14) 0) + w.getD (i + 9) 0
        + ssig0 (w.getD (i + 1) 0) + w.getD i 0) % M32))
    w

structure Sha8 where
  (a b c d e f g h : ℕ)
deriving DecidableEq, Repr

def shaRound (w : Array ℕ) (s : Sha8) (t : ℕ) : Sha8 :=
  let T1 := (s.h + bsig1 s.e + shaCh s.e s.f s.g + sha_K.getD t 0 + w.getD t 0) % M32
  let T2 := (bsig0 s.a + shaMaj s.a s.b s.c) % M32
  { a := (T1 + T2) % M32, b := s.a, c := s.b, d := s.c,
    e := (s.d + T1) % M32, f := s.e, g := s.f, h := s.g }

def shaBlock (hs : List ℕ) (block : List ℕ) : List ℕ :=
  let w := shaExtend (Array.mk block)
  let init : Sha8 :=
    { a := hs.getD 0 0, b := hs.getD 1 0, c := hs.getD 2 0, d := hs.getD 3 0,
      e := hs.getD 4 0, f := hs.getD 5 0, g := hs.getD 6 0, h := hs.getD 7 0 }
  let s := (List.range 64).foldl (shaRound w) init
  [(hs.getD 0 0 + s.a) % M32, (hs.getD 1 0 + s.b) % M32,
   (hs.getD 2 0 + s.c) % M32, (hs.getD 3 0 + s.d) % M32,
   (hs.getD 4 0 + s.e) % M32, (hs.getD 5 0 + s.f) % M32,
   (hs.getD 6 0 + s.g) % M32, (hs.getD 7 0 + s.h) % M32]

def sha256words (msg : List ℕ) : List ℕ :=
  (chunks16 (toWords (shaPad msg))).foldl shaBlock sha_H0

def hexChar (n : ℕ) : Char :=
  if n < 10 then Char.ofNat (48 + n) else Char.ofNat (87 + n)

def hexWord (w : ℕ) : List Char :=
  [hexChar ((w >>> 28) % 16), hexChar ((w >>> 24) % 16),
   hexChar ((w >>> 20) % 16), hexChar ((w >>> 16) % 16),
   hexChar ((w >>> 12) % 16), hexChar ((w >>> 8) % 16),
   hexChar ((w >>> 4) % 16), hexChar (w % 16)]

def sha256hex (msg : List ℕ) : String :=
  String.mk ((sha256words msg).foldr (fun w acc => hexWord w ++ acc) [])

/-- UTF-8 encoding of one code point. -/
def utf8Bytes (c : Char) : List ℕ :=
  let n := c.toNat
  if n < 0x80 then [n]
  else if n < 0x800 then
    [0xC0 ||| (n >>> 6), 0x80 ||| (n &&& 0x3F)]
  else if n < 0x10000 then
    [0xE0 ||| (n >>> 12), 0x80 ||| ((n >>> 6) &&& 0x3F), 0x80 ||| (n &&& 0x3F)]
  else
    [0xF0 ||| (n >>> 18), 0x80 ||| ((n >>> 12) &&& 0x3F),
     0x80 ||| ((n >>> 6) &&& 0x3F), 0x80 ||| (n &&& 0x3F)]

/-- UTF-8 bytes of a string, as Python's `str.encode("utf-8")`. -/
def strBytes (s : String) : List ℕ := s.toList.foldr (fun c acc => utf8Bytes c ++ acc) []

/-- `_cache_key` (lines 91-92): hex SHA-256 of `f"{query}\n{limit}"`. -/
def cache_key (query : String) (limit : ℕ) : String :=
  sha256hex (strBytes (query ++ "\n" ++ toString limit))

/-! ## Result documents (the JSON payloads built at lines 227-239, 263) -/

/-- One normalized comparable-item record (lines 227-233). -/
structure Comp where
  title : String
  price_eur : ℚ
  url : String
  condition : String
  source : String
deriving DecidableEq, Repr

/-- `last_debug` (lines 190-194): the last attempt's snapshot. -/
structure AttemptDbg where
  attempt : ℕ
  status_code : ℕ
  ebay_url : String
deriving DecidableEq, Repr

/-- The debug summary returned by `_serpapi_call_sold` (lines 235-239). -/
structure SerpDbg where
  count_raw : ℕ
  count_eur : ℕ
  serpapi_debug : AttemptDbg
deriving DecidableEq, Repr

/-- The two `HTTPException(502, ...)` details of `_serpapi_call_sold`
(lines 201 and 205). -/
inductive UpErr
  | failed (debug : AttemptDbg)
  | errorField (error : String) (debug : AttemptDbg)
deriving DecidableEq, Repr

/-- The `debug` sub-dict of a result document; `none` = key absent. -/
structure Debug where
  cache : Option String := none
  cache_age_seconds : Option ℤ := none
  ttl_seconds : Option ℕ := none
  stale : Option Bool := none
  refresh_skipped : Option LimDbg := none
  refresh_failed : Option UpErr := none
  count_raw : Option ℕ := none
  count_eur : Option ℕ := none
  serpapi_debug : Option AttemptDbg := none
deriving DecidableEq, Repr

/-- A result document: the dict returned by `fetch_ebay_sold` and stored
in the cache. -/
structure ResultDoc where
  items : List Comp
  debug : Option Debug := none
deriving DecidableEq, Repr

def ResultDoc.dbg (d : ResultDoc) : Debug := d.debug.getD {}

/-! ## Upstream HTTP model (what `requests.get` returns at line 189) -/

/-- The nested `price` object of a raw item (line 210-213).  JSON numbers
are modelled by `ℚ`; `float()` on a JSON number is the identity and
cannot raise, so the `try/except` at lines 222-225 never skips. -/
structure PriceInfo where
  extracted_value : Option ℚ := none
  extracted : Option ℚ := none
  raw : String := ""
  currency : Option String := none
deriving DecidableEq, Repr

/-- A raw `organic_results` item. -/
structure Item where
  price : Option PriceInfo := none
  title : Option String := none
  link : Option String := none
  condition : Option String := none
deriving DecidableEq, Repr

/-- The parsed JSON body of an upstream response; `ebay_url` stands for
`search_metadata.ebay_url` (line 193). -/
structure Body where
  error : Option String := none
  ebay_url : Option String := none
  organic_results : List Item := []
deriving DecidableEq, Repr

structure Response where
  status_code : ℕ
  body : Body
deriving DecidableEq, Repr

/-- `requests.Response.ok`: status below 400. -/
def Response.ok (r : Response) : Bool := r.status_code < 400

/-! ## Normalization and currency filter (lines 207-233) -/

/-- Python `a or b` on optional numbers: `None` and `0`/`0.0` are falsy,
so a present-but-zero `extracted_value` falls through to `extracted`. -/
def pyOrNum (a b : Option ℚ) : Option ℚ :=
  match a with
  | some x => if x = 0 then b else some x
  | none => b

/-- Python `a or b` on strings: the empty string is falsy. -/
def pyOrStr (a b : String) : String := if a = "" then b else a

def startsWithList : List Char → List Char → Bool
  | [], _ => true
  | _ :: _, [] => false
  | p :: ps, c :: cs => p == c && startsWithList ps cs

def hasSubList (pat : List Char) : List Char → Bool
  | [] => startsWithList pat []
  | c :: cs => startsWithList pat (c :: cs) || hasSubList pat cs

/-- Python `needle in hay` on strings (contiguous substring). -/
def pyIn (needle hay : String) : Bool := hasSubList needle.toList hay.toList

/-- Python `str.upper()`, as an ASCII case map over the character list
(the same map `String.toUpper` performs; no string the source compares
case-insensitively holds non-ASCII letters). -/
def pyUpper (s : String) : String := String.mk (s.toList.map Char.toUpper)

/-- The literal the source scans `raw` for at line 218: the three
characters U+00E2 U+201A U+00AC — a mis-encoded euro sign (the UTF-8
bytes of U+20AC decoded as another charset), not U+20AC itself.  The
byte-level check of src/markter.py line 218 confirms the file holds
C3 A2 E2 80 9A C2 AC between the quotes. -/
def eurNeedle : String := "\u00E2\u201A\u00AC"

/-- The loop body of lines 209-233: normalize one raw item, or drop it.
`str.upper()` is modelled by `String.toUpper` (ASCII case map; all
strings the claims exercise are ASCII apart from `eurNeedle`, which is
never uppercased by the source). -/
def normItem (it : Item) : Option Comp :=
  let price_info := it.price.getD {}
  let extracted := pyOrNum price_info.extracted_value price_info.extracted
  let raw := price_info.raw
  let currency := pyUpper (price_info.currency.getD "")
  match extracted with
  | none => none
  | some ev =>
    let is_eur := currency == "EUR" || pyIn eurNeedle raw || pyIn "EUR" (pyUpper raw)
    if !is_eur then none
    else
      some { title := (pyOrStr (it.title.getD "") "").take 200,
             price_eur := ev,
             url := it.link.getD "",
             condition := it.condition.getD "Onbekend",
             source := "ebay_sold_serpapi" }

/-! ## Upstream client with retry (lines 177-239) -/

def mkAttemptDbg (attempt : ℕ) (r : Response) : AttemptDbg :=
  { attempt := attempt, status_code := r.status_code,
    ebay_url := if r.ok then r.body.ebay_url.getD "N/A" else "N/A" }

def backoffs : List ℕ := [2, 4, 8]

/-- The `for attempt, wait_s in enumerate(backoffs, start=1)` loop
(lines 188-198), recursing over the remaining enumerated pairs.  Returns
the response and debug snapshot left bound after the loop, and the list
of `time.sleep` durations performed. -/
def retryLoop (resp : ℕ → Response) :
    (ℕ × ℕ) → List (ℕ × ℕ) → List ℕ → Response × AttemptDbg × List ℕ
  | (attempt, wait_s), rest, sleeps =>
    let r := resp attempt
    let dbg := mkAttemptDbg attempt r
    if 500 ≤ r.status_code then
      match rest with
      | [] => (r, dbg, sleeps ++ [wait_s])
      | p :: ps => retryLoop resp p ps (sleeps ++ [wait_s])
    else (r, dbg, sleeps)

/-- The whole attempt loop: `enumerate([2, 4, 8], start=1)`. -/
def runAttempts (resp : ℕ → Response) : Response × AttemptDbg × List ℕ :=
  retryLoop resp (1, 2) [(2, 4), (3, 8)] []

/-- `_serpapi_call_sold` (lines 177-239).  The fixed request params
(lines 178-185) only shape the real network call, which is abstracted
into `resp`; `query` is kept for the signature. -/
def serpapi_call_sold (resp : ℕ → Response) (_query : String) (limit : ℕ) :
    Except UpErr (List Comp × SerpDbg) :=
  let (r, last_debug, _) := runAttempts resp
  if r.status_code ≠ 200 then
    .error (.failed last_debug)
  else
    match r.body.error with
    | some e => .error (.errorField e last_debug)
    | none =>
      let items := r.body.organic_results
      let comps := items.filterMap normItem
      .ok (comps.take limit,
           { count_raw := items.length, count_eur := comps.length,
             serpapi_debug := last_debug })

/-! ## Cache store (lines 69-128) -/

/-- One row of the sqlite `cache` table; `payload` is the stored JSON
text, kept as its parse result (`none` = text `json.loads` rejects). -/
structure CacheRow where
  ts : ℤ
  payload : Option ResultDoc
deriving DecidableEq, Repr

/-- The table, as a map from fingerprint to row. -/
def Cache : Type := String → Option CacheRow

/-- What `_cache_get` returns on a usable hit (line 110). -/
structure CacheHit where
  k : String
  ts : ℤ
  age : ℤ
  data : ResultDoc
deriving DecidableEq, Repr

/-- `data.setdefault("debug", {})` plus the HIT tagging of lines 107-109. -/
def hitTag (d : ResultDoc) (age : ℤ) : ResultDoc :=
  let dbg := d.debug.getD {}
  { d with debug := some { dbg with cache := some "HIT", cache_age_seconds := some age } }

/-- `_cache_get` (lines 95-110); `int(time.time())` is `⌊now⌋`. -/
def cache_get (c : Cache) (now : ℚ) (query : String) (limit : ℕ) : Option CacheHit :=
  let k := cache_key query limit
  match c k with
  | none => none
  | some row =>
    match row.payload with
    | none => none
    | some data =>
      let age : ℤ := ⌊now⌋ - row.ts
      some { k := k, ts := row.ts, age := age, data := hitTag data age }

/-- `_cache_set` (lines 113-122): upsert at the fingerprint;
`json.dumps`/`json.loads` round-trip, so the row stores the document. -/
def cache_set (c : Cache) (now : ℚ) (query : String) (limit : ℕ) (data : ResultDoc) : Cache :=
  fun k => if k = cache_key query limit then some { ts := ⌊now⌋, payload := some data } else c k

/-- `_cache_clear` (lines 125-128): `DELETE FROM cache`. -/
def cache_clear : Cache := fun _ => none

/-! ## Fetch orchestrator (lines 243-270) -/

/-- The `HTTPException`s `fetch_ebay_sold` can raise, by construction
site: line 245 (status 400), line 259 (status 429), and the propagated
502 of `_serpapi_call_sold`. -/
inductive FetchErr
  | missingKey
  | rateLimited (debug : LimDbg)
  | upstream (e : UpErr)
deriving DecidableEq, Repr

def FetchErr.status : FetchErr → ℕ
  | .missingKey => 400
  | .rateLimited _ => 429
  | .upstream _ => 502

/-- Line 251: fresh-path debug update. -/
def freshTag (d : ResultDoc) : ResultDoc :=
  let dbg := d.dbg
  { d with debug := some { dbg with
      ttl_seconds := some TTL_SECONDS_DEFAULT,
      stale := some false } }

/-- Line 257: limiter-denied stale fallback.  The TTL label written here
is `TTL_SECONDS_DEFAULT`, not `TTL_SECONDS_FALLBACK`. -/
def staleLimTag (d : ResultDoc) (lim_dbg : LimDbg) : ResultDoc :=
  let dbg := d.dbg
  { d with debug := some { dbg with
      ttl_seconds := some TTL_SECONDS_DEFAULT,
      stale := some true,
      refresh_skipped := some lim_dbg } }

/-- Line 268: upstream-failure stale fallback (fallback TTL label). -/
def staleFailTag (d : ResultDoc) (e : UpErr) : ResultDoc :=
  let dbg := d.dbg
  { d with debug := some { dbg with
      ttl_seconds := some TTL_SECONDS_FALLBACK,
      stale := some true,
      refresh_failed := some e } }

/-- Line 263: `{"cache": "MISS", "ttl_seconds": TTL_SECONDS_DEFAULT} | dbg`
(dict union; the key sets are disjoint). -/
def missOut (comps : List Comp) (dbg : SerpDbg) : ResultDoc :=
  { items := comps,
    debug := some { cache := some "MISS", ttl_seconds := some TTL_SECONDS_DEFAULT,
                    count_raw := some dbg.count_raw, count_eur := some dbg.count_eur,
                    serpapi_debug := some dbg.serpapi_debug } }

/-- Line 247: `max(1, min(int(limit), 200))`. -/
def clampLimit (limit : ℤ) : ℕ := (max 1 (min limit 200)).toNat

/-- The process-wide mutable state `fetch_ebay_sold` touches. -/
structure SysState where
  cache : Cache
  limiter : LimiterState

/-- Lines 254-270: the flow after the fresh-cache check has failed
(shared by the cache-miss and the stale-hit branch). -/
def fetchRefresh (now : ℚ) (tk : String) (resp : ℕ → Response)
    (st : SysState) (query : String) (lim : ℕ) (cached : Option CacheHit) :
    Except FetchErr ResultDoc × SysState :=
  let ((allowed, lim_dbg), limiter2) := limiter_allow now tk st.limiter
  let st2 : SysState := { st with limiter := limiter2 }
  if !allowed then
    match cached with
    | some ch => (.ok (staleLimTag ch.data lim_dbg), st2)
    | none => (.error (.rateLimited lim_dbg), st2)
  else
    match serpapi_call_sold resp query lim with
    | .ok (comps, dbg) =>
      let out := missOut comps dbg
      (.ok out, { st2 with cache := cache_set st2.cache now query lim out })
    | .error e =>
      match cached with
      | some ch => (.ok (staleFailTag ch.data e), st2)
      | none => (.error (.upstream e), st2)

/-- `fetch_ebay_sold` (lines 243-270).  `hasKey` is `bool(SERPAPI_KEY)`;
`now` stands for the (single) observation instant of `time.time()`, and
`tk` for `_today_key_local()`. -/
def fetch_ebay_sold (hasKey : Bool) (now : ℚ) (tk : String) (resp : ℕ → Response)
    (st : SysState) (query : String) (limit : ℤ) :
    Except FetchErr ResultDoc × SysState :=
  if !hasKey then (.error .missingKey, st)
  else
    let lim := clampLimit limit
    match cache_get st.cache now query lim with
    | some ch =>
      if ch.age ≤ (TTL_SECONDS_DEFAULT : ℤ) then (.ok (freshTag ch.data), st)
      else fetchRefresh now tk resp st query lim (some ch)
    | none => fetchRefresh now tk resp st query lim none

/-! ## Derived operations and predicates used by the statements -/

/-- Iterate the limiter over a list of `(now, today-key)` observations,
collecting each call's decision (the per-request view of the shared
global state under the lock). -/
def runLimiter (s : LimiterState) : List (ℚ × String) → List (Bool × LimDbg) × LimiterState
  | [] => ([], s)
  | (now, tk) :: rest =>
    let r := limiter_allow now tk s
    let t := runLimiter r.2 rest
    (r.1 :: t.1, t.2)

/-- How many calls of a decision list were permitted. -/
def countAllowed (rs : List (Bool × LimDbg)) : ℕ := (rs.filter (fun r => r.1)).length

/-- Whether the fresh-cache branch of line 250 fires. -/
def freshHitB (c : Cache) (now : ℚ) (query : String) (lim : ℕ) : Bool :=
  match cache_get c now query lim with
  | some ch => ch.age ≤ (TTL_SECONDS_DEFAULT : ℤ)
  | none => false

def serpOkB (resp : ℕ → Response) (query : String) (lim : ℕ) : Bool :=
  match serpapi_call_sold resp query lim with
  | .ok _ => true
  | .error _ => false

/-- A `fetch_ebay_sold` invocation performs a successful upstream call:
the key is configured, the fresh-cache branch does not fire, the
limiter permits, and `_serpapi_call_sold` returns. -/
def upstreamSuccessB (hasKey : Bool) (now : ℚ) (tk : String) (resp : ℕ → Response)
    (st : SysState) (query : String) (limit : ℤ) : Bool :=
  hasKey && !freshHitB st.cache now query (clampLimit limit)
    && (limiter_allow now tk st.limiter).1.1
    && serpOkB resp query (clampLimit limit)

/-! ## Concrete fixtures for witnesses and counterexamples -/

def comp0 : Comp :=
  { title := "Vintage lamp", price_eur := 42, url := "https://www.ebay.nl/itm/1",
    condition := "Gebruikt", source := "ebay_sold_serpapi" }

def doc0 : ResultDoc := { items := [comp0], debug := some {} }

def row0 : CacheRow := { ts := 0, payload := some doc0 }

/-- A table with a (parseable) row under every fingerprint. -/
def cacheAll : Cache := fun _ => some row0

/-- The empty table. -/
def cacheNone : Cache := fun _ => none

def st0 : SysState := { cache := cacheNone, limiter := limiterInit }

def stAll : SysState := { cache := cacheAll, limiter := limiterInit }

/-- A limiter that has already permitted the daily cap today. -/
def limFull : LimiterState :=
  { last_call_ts := 0, day_key := some "2026-10-12", day_calls := 200 }

/-- A limiter whose last permitted call was at t = 5 (same day). -/
def limRecent : LimiterState :=
  { last_call_ts := 5, day_key := some "2026-10-12", day_calls := 3 }

/-- Upstream always answers 500. -/
def resp500 : ℕ → Response := fun _ => { status_code := 500, body := {} }

/-- An item priced in euros whose `raw` text carries the genuine euro
sign U+20AC and no `currency` field. -/
def euroItem : Item :=
  { price := some { extracted_value := some 42, raw := "€ 42,00" },
    title := some "Vintage lamp", link := some "https://www.ebay.nl/itm/1" }

/-- The same item, but with `raw` holding the mis-encoded three-character
sequence the source actually scans for. -/
def mojItem : Item :=
  { price := some { extracted_value := some 42, raw := "\u00E2\u201A\u00AC 42,00" },
    title := some "Vintage lamp", link := some "https://www.ebay.nl/itm/1" }

/-- An item with an explicit non-euro currency. -/
def usdItem : Item :=
  { price := some { extracted_value := some 10, raw := "$10.00", currency := some "USD" },
    title := some "US lamp", link := some "https://www.ebay.com/itm/2" }

/-- Upstream answers 503 on the first attempt, then 200 with one item. -/
def respRecover : ℕ → Response := fun n =>
  if n = 1 then { status_code := 503, body := {} }
  else { status_code := 200,
         body := { ebay_url := some "https://www.ebay.nl/sch/q",
                   organic_results := [mojItem, usdItem] } }

/-- Upstream immediately answers 200 with two raw items. -/
def resp200 : ℕ → Response := fun _ =>
  { status_code := 200,
    body := { ebay_url := some "https://www.ebay.nl/sch/q",
              organic_results := [mojItem, usdItem] } }

instance {ε α : Type} [DecidableEq ε] [DecidableEq α] : DecidableEq (Except ε α) := fun x y =>
  match x, y with
  | .ok a, .ok b =>
    if h : a = b then .isTrue (by rw [h]) else .isFalse (fun hc => h (by injection hc))
  | .error a, .error b =>
    if h : a = b then .isTrue (by rw [h]) else .isFalse (fun hc => h (by injection hc))
  | .ok _, .error _ => .isFalse (fun hc => Except.noConfusion hc)
  | .error _, .ok _ => .isFalse (fun hc => Except.noConfusion hc)

/-! ## Limiter lemmas -/

theorem limiter_reset_same (tk : String) (s : LimiterState) (h : s.day_key = some tk) :
    limiter_reset tk s = s := by
  simp [limiter_reset, h]

theorem limiter_reset_new (tk : String) (s : LimiterState) (h : s.day_key ≠ some tk) :
    limiter_reset tk s = { last_call_ts := 0, day_key := some tk, day_calls := 0 } := by
  simp [limiter_reset, h]

theorem limiter_allow_daily_cap (now : ℚ) (tk : String) (s : LimiterState)
    (h : MAX_CALLS_PER_DAY ≤ (limiter_reset tk s).day_calls) :
    limiter_allow now tk s =
      ((false, { reason := some "daily_cap",
                 day_calls := some (limiter_reset tk s).day_calls,
                 day_cap := some MAX_CALLS_PER_DAY }), limiter_reset tk s) := by
  simp only [limiter_allow]
  rw [if_pos h]

theorem limiter_allow_min_interval (now : ℚ) (tk : String) (s : LimiterState)
    (h1 : (limiter_reset tk s).day_calls < MAX_CALLS_PER_DAY)
    (h2 : now - (limiter_reset tk s).last_call_ts < MIN_SECONDS_BETWEEN_CALLS) :
    limiter_allow now tk s =
      ((false, { reason := some "min_interval",
                 retry_after_seconds :=
                   some (⌊MIN_SECONDS_BETWEEN_CALLS - (now - (limiter_reset tk s).last_call_ts)⌋ + 1) }),
       limiter_reset tk s) := by
  have hpos : (0 : ℚ) < MIN_SECONDS_BETWEEN_CALLS - (now - (limiter_reset tk s).last_call_ts) :=
    sub_pos.mpr h2
  have hw : max 0 (MIN_SECONDS_BETWEEN_CALLS - (now - (limiter_reset tk s).last_call_ts))
      = MIN_SECONDS_BETWEEN_CALLS - (now - (limiter_reset tk s).last_call_ts) :=
    max_eq_right hpos.le
  simp only [limiter_allow, hw]
  rw [if_neg (not_le.mpr h1), if_pos hpos]

theorem limiter_allow_allowed (now : ℚ) (tk : String) (s : LimiterState)
    (h1 : (limiter_reset tk s).day_calls < MAX_CALLS_PER_DAY)
    (h2 : MIN_SECONDS_BETWEEN_CALLS ≤ now - (limiter_reset tk s).last_call_ts) :
    limiter_allow now tk s =
      ((true, { day_calls := some ((limiter_reset tk s).day_calls + 1),
                day_cap := some MAX_CALLS_PER_DAY }),
       { limiter_reset tk s with last_call_ts := now,
                                 day_calls := (limiter_reset tk s).day_calls + 1 }) := by
  have hw : max 0 (MIN_SECONDS_BETWEEN_CALLS - (now - (limiter_reset tk s).last_call_ts))
      = 0 := max_eq_left (sub_nonpos.mpr h2)
  simp only [limiter_allow, hw]
  rw [if_neg (not_le.mpr h1), if_neg (lt_irrefl (0 : ℚ))]

/-- A permitted call always leaves the committed state behind. -/
theorem limiter_allow_commit (now : ℚ) (tk : String) (s : LimiterState)
    (h : (limiter_allow now tk s).1.1 = true) :
    (limiter_allow now tk s).2 =
      { limiter_reset tk s with last_call_ts := now,
                                day_calls := (limiter_reset tk s).day_calls + 1 } := by
  by_cases h1 : MAX_CALLS_PER_DAY ≤ (limiter_reset tk s).day_calls
  · rw [limiter_allow_daily_cap now tk s h1] at h
    simp at h
  · by_cases h2 : now - (limiter_reset tk s).last_call_ts < MIN_SECONDS_BETWEEN_CALLS
    · rw [limiter_allow_min_interval now tk s (not_le.mp h1) h2] at h
      simp at h
    · rw [limiter_allow_allowed now tk s (not_le.mp h1) (not_lt.mp h2)]

/-- A denied call leaves the (possibly day-reset) state untouched. -/
theorem limiter_allow_denied_state (now : ℚ) (tk : String) (s : LimiterState)
    (h : (limiter_allow now tk s).1.1 = false) :
    (limiter_allow now tk s).2 = limiter_reset tk s := by
  by_cases h1 : MAX_CALLS_PER_DAY ≤ (limiter_reset tk s).day_calls
  · rw [limiter_allow_daily_cap now tk s h1]
  · by_cases h2 : now - (limiter_reset tk s).last_call_ts < MIN_SECONDS_BETWEEN_CALLS
    · rw [limiter_allow_min_interval now tk s (not_le.mp h1) h2]
    · rw [limiter_allow_allowed now tk s (not_le.mp h1) (not_lt.mp h2)] at h
      simp at h

/-- Single-step accounting on a same-day call: the day key survives, the
counter counts exactly the permitted calls, and a permitted call keeps
the counter within the cap. -/
theorem limiter_step_same_day (now : ℚ) (tk : String) (s : LimiterState)
    (h : s.day_key = some tk) :
    (limiter_allow now tk s).2.day_key = some tk ∧
    (limiter_allow now tk s).2.day_calls
      = s.day_calls + (if (limiter_allow now tk s).1.1 then 1 else 0) ∧
    ((limiter_allow now tk s).1.1 = true →
      (limiter_allow now tk s).2.day_calls ≤ MAX_CALLS_PER_DAY) := by
  have hr := limiter_reset_same tk s h
  by_cases h1 : MAX_CALLS_PER_DAY ≤ (limiter_reset tk s).day_calls
  · rw [limiter_allow_daily_cap now tk s h1]
    simp [hr, h]
  · by_cases h2 : now - (limiter_reset tk s).last_call_ts < MIN_SECONDS_BETWEEN_CALLS
    · rw [limiter_allow_min_interval now tk s (not_le.mp h1) h2]
      simp [hr, h]
    · rw [limiter_allow_allowed now tk s (not_le.mp h1) (not_lt.mp h2)]
      rw [hr] at h1 ⊢
      simp [h]
      exact not_le.mp h1

theorem countAllowed_cons (r : Bool × LimDbg) (rs : List (Bool × LimDbg)) :
    countAllowed (r :: rs) = (if r.1 then 1 else 0) + countAllowed rs := by
  by_cases h : r.1 <;> simp [countAllowed, h, Nat.add_comm]

/-- Run-level accounting over a same-day trace. -/
theorem runLimiter_same_day (tk : String) (nows : List ℚ) :
    ∀ s : LimiterState, s.day_key = some tk →
      (runLimiter s (nows.map (fun n => (n, tk)))).2.day_key = some tk ∧
      (runLimiter s (nows.map (fun n => (n, tk)))).2.day_calls
        = s.day_calls + countAllowed (runLimiter s (nows.map (fun n => (n, tk)))).1 ∧
      (countAllowed (runLimiter s (nows.map (fun n => (n, tk)))).1 ≠ 0 →
        (runLimiter s (nows.map (fun n => (n, tk)))).2.day_calls ≤ MAX_CALLS_PER_DAY) := by
  induction nows with
  | nil => intro s h; simp [runLimiter, countAllowed, h]
  | cons n rest ih =>
    intro s h
    obtain ⟨hk, hcount, hbound⟩ := limiter_step_same_day n tk s h
    obtain ⟨ihk, ihcount, ihbound⟩ := ih (limiter_allow n tk s).2 hk
    simp only [List.map_cons, runLimiter, countAllowed_cons]
    refine ⟨ihk, ?_, ?_⟩
    · rw [ihcount, hcount]
      by_cases ha : (limiter_allow n tk s).1.1 <;> (simp [ha]; try omega)
    · intro hne
      by_cases hz : countAllowed (runLimiter (limiter_allow n tk s).2
          (rest.map (fun n => (n, tk)))).1 = 0
      · rw [ihcount, hz]
        simp only [hz, add_zero] at hne ⊢
        by_cases ha : (limiter_allow n tk s).1.1
        · exact add_zero ((limiter_allow n tk s).2.day_calls) ▸ hbound ha
        · simp [ha] at hne
      · exact ihbound hz

/-- On a day-key change, the decision is taken from the freshly reset
state (the reset happens before the allow/deny evaluation). -/
theorem limiter_allow_new_day_eq (now : ℚ) (tk : String) (s : LimiterState)
    (h : s.day_key ≠ some tk) :
    limiter_allow now tk s
      = limiter_allow now tk { last_call_ts := 0, day_key := some tk, day_calls := 0 } := by
  have h1 := limiter_reset_new tk s h
  have h2 : limiter_reset tk { last_call_ts := 0, day_key := some tk, day_calls := 0 }
      = { last_call_ts := 0, day_key := some tk, day_calls := 0 } :=
    limiter_reset_same _ _ rfl
  simp only [limiter_allow, h1, h2]

/-- Step accounting on the first call of a new day. -/
theorem limiter_step_new_day (now : ℚ) (tk : String) (s : LimiterState)
    (h : s.day_key ≠ some tk) :
    (limiter_allow now tk s).2.day_key = some tk ∧
    (limiter_allow now tk s).2.day_calls
      = (if (limiter_allow now tk s).1.1 then 1 else 0) ∧
    ((limiter_allow now tk s).1.1 = true →
      (limiter_allow now tk s).2.day_calls ≤ MAX_CALLS_PER_DAY) := by
  rw [limiter_allow_new_day_eq now tk s h]
  simpa using limiter_step_same_day now tk
    { last_call_ts := 0, day_key := some tk, day_calls := 0 } rfl

/-- Claim C4 fails as stated: at a call arriving exactly at the previous
permitted timestamp the remaining wait is exactly 2 s, whose round-up is
2, yet the returned retry-after hint is `int(2.0) + 1 = 3`. -/
theorem C4_counterexample :
    (limiter_allow 5 "2026-10-12" limRecent).1
      = (false, { reason := some "min_interval", retry_after_seconds := some 3 }) ∧
    MIN_SECONDS_BETWEEN_CALLS - ((5 : ℚ) - limRecent.last_call_ts) = 2 ∧
    ⌈MIN_SECONDS_BETWEEN_CALLS - ((5 : ℚ) - limRecent.last_call_ts)⌉ = 2 ∧
    (3 : ℤ) ≠ 2 := by
  have hr : limiter_reset "2026-10-12" limRecent = limRecent := limiter_reset_same _ _ rfl
  have h1 : (limiter_reset "2026-10-12" limRecent).day_calls < MAX_CALLS_PER_DAY := by
    rw [hr]; norm_num [limRecent, MAX_CALLS_PER_DAY]
  have h2 : (5 : ℚ) - (limiter_reset "2026-10-12" limRecent).last_call_ts
      < MIN_SECONDS_BETWEEN_CALLS := by
    rw [hr]; norm_num [limRecent, MIN_SECONDS_BETWEEN_CALLS]
  have h := limiter_allow_min_interval 5 "2026-10-12" limRecent h1 h2
  rw [hr] at h
  refine ⟨?_, ?_, ?_, by norm_num⟩
  · rw [h]
    have : (⌊MIN_SECONDS_BETWEEN_CALLS - ((5 : ℚ) - limRecent.last_call_ts)⌋ + 1 : ℤ) = 3 := by
      norm_num [limRecent, MIN_SECONDS_BETWEEN_CALLS]
    rw [this]
  · norm_num [limRecent, MIN_SECONDS_BETWEEN_CALLS]
  · norm_num [limRecent, MIN_SECONDS_BETWEEN_CALLS]

/-- Claim C4, amended: after the lazy same-day reset, the limiter denies
with reason `daily_cap` (detail holding count and cap) when the day
count has reached the cap; otherwise it denies with reason
`min_interval` and a retry-after hint of `⌊remaining wait⌋ + 1` seconds
(the round-up of the wait, except one second more at exact whole-second
waits) when the spacing is under `minInterval`; otherwise it atomically
commits `lastCallAt = now`, increments the day count, and allows with
count and cap. -/
theorem C4_amended (now : ℚ) (tk : String) (s : LimiterState) :
    (MAX_CALLS_PER_DAY ≤ (limiter_reset tk s).day_calls →
      limiter_allow now tk s =
        ((false, { reason := some "daily_cap",
                   day_calls := some (limiter_reset tk s).day_calls,
                   day_cap := some MAX_CALLS_PER_DAY }), limiter_reset tk s)) ∧
    ((limiter_reset tk s).day_calls < MAX_CALLS_PER_DAY →
      now - (limiter_reset tk s).last_call_ts < MIN_SECONDS_BETWEEN_CALLS →
      limiter_allow now tk s =
        ((false, { reason := some "min_interval",
                   retry_after_seconds :=
                     some (⌊MIN_SECONDS_BETWEEN_CALLS
                        - (now - (limiter_reset tk s).last_call_ts)⌋ + 1) }),
         limiter_reset tk s)) ∧
    ((limiter_reset tk s).day_calls < MAX_CALLS_PER_DAY →
      MIN_SECONDS_BETWEEN_CALLS ≤ now - (limiter_reset tk s).last_call_ts →
      limiter_allow now tk s =
        ((true, { day_calls := some ((limiter_reset tk s).day_calls + 1),
                  day_cap := some MAX_CALLS_PER_DAY }),
         { limiter_reset tk s with last_call_ts := now,
                                   day_calls := (limiter_reset tk s).day_calls + 1 })) :=
  ⟨fun h => limiter_allow_daily_cap now tk s h,
   fun h1 h2 => limiter_allow_min_interval now tk s h1 h2,
   fun h1 h2 => limiter_allow_allowed now tk s h1 h2⟩

theorem C4_witness :
    (limiter_allow (13 / 2 : ℚ) "2026-10-12" limRecent).1
      = (false, { reason := some "min_interval", retry_after_seconds := some 1 }) ∧
    (limiter_allow 1000000 "2026-10-12" limRecent).1.1 = true ∧
    (limiter_allow 0 "2026-10-12" limFull).1.2.reason = some "daily_cap" := by
  have hr : limiter_reset "2026-10-12" limRecent = limRecent := limiter_reset_same _ _ rfl
  have hrf : limiter_reset "2026-10-12" limFull = limFull := limiter_reset_same _ _ rfl
  refine ⟨?_, ?_, ?_⟩
  · have h := (C4_amended (13 / 2 : ℚ) "2026-10-12" limRecent).2.1
      (by rw [hr]; norm_num [limRecent, MAX_CALLS_PER_DAY])
      (by rw [hr]; norm_num [limRecent, MIN_SECONDS_BETWEEN_CALLS])
    rw [hr] at h
    rw [h]
    have : (⌊MIN_SECONDS_BETWEEN_CALLS - ((13 / 2 : ℚ) - limRecent.last_call_ts)⌋ + 1 : ℤ)
        = 1 := by
      have hx : MIN_SECONDS_BETWEEN_CALLS - ((13 / 2 : ℚ) - limRecent.last_call_ts)
          = 1 / 2 := by norm_num [limRecent, MIN_SECONDS_BETWEEN_CALLS]
      rw [hx]
      norm_num [Int.floor_eq_zero_iff]
    rw [this]
  · have h := (C4_amended 1000000 "2026-10-12" limRecent).2.2
      (by rw [hr]; norm_num [limRecent, MAX_CALLS_PER_DAY])
      (by rw [hr]; norm_num [limRecent, MIN_SECONDS_BETWEEN_CALLS])
    rw [h]
  · have h := (C4_amended 0 "2026-10-12" limFull).1
      (by rw [hrf]; norm_num [limFull, MAX_CALLS_PER_DAY])
    rw [h]

/-- Claim C5: within one calendar day at most `dailyCap` calls are
permitted; once the day counter has absorbed the cap the next same-day
call is denied with reason `daily_cap`; the counter counts exactly the
permitted calls of the day; and the first call of a new day decides
from the reset state (`dayCallCount = 0`, `lastCallAt` cleared). -/
theorem C5_daily_cap (s : LimiterState) (tk : String) (now : ℚ) (nows : List ℚ) :
    (s.day_key = some tk →
      (runLimiter s (nows.map (fun n => (n, tk)))).2.day_calls
        = s.day_calls + countAllowed (runLimiter s (nows.map (fun n => (n, tk)))).1) ∧
    (s.day_key = some tk → MAX_CALLS_PER_DAY ≤ s.day_calls →
      (limiter_allow now tk s).1.1 = false ∧
      (limiter_allow now tk s).1.2.reason = some "daily_cap") ∧
    (s.day_key ≠ some tk →
      countAllowed (runLimiter s (((now :: nows)).map (fun n => (n, tk)))).1
        ≤ MAX_CALLS_PER_DAY) ∧
    (s.day_key ≠ some tk →
      limiter_allow now tk s
        = limiter_allow now tk { last_call_ts := 0, day_key := some tk, day_calls := 0 }) := by
  refine ⟨fun h => (runLimiter_same_day tk nows s h).2.1, fun h hcap => ?_, fun h => ?_, 
    fun h => limiter_allow_new_day_eq now tk s h⟩
  · have hc : MAX_CALLS_PER_DAY ≤ (limiter_reset tk s).day_calls := by
      rw [limiter_reset_same tk s h]; exact hcap
    rw [limiter_allow_daily_cap now tk s hc]
    exact ⟨rfl, rfl⟩
  · obtain ⟨hk, hone, hbound⟩ := limiter_step_new_day now tk s h
    obtain ⟨rk, rcount, rbound⟩ :=
      runLimiter_same_day tk nows (limiter_allow now tk s).2 hk
    simp only [List.map_cons, runLimiter, countAllowed_cons]
    by_cases hz : countAllowed (runLimiter (limiter_allow now tk s).2
        (nows.map (fun n => (n, tk)))).1 = 0
    · rw [hz]
      by_cases ha : (limiter_allow now tk s).1.1 <;>
        simp [ha, MAX_CALLS_PER_DAY]
    · have hb := rbound hz
      rw [hone] at rcount
      rw [← rcount]
      exact hb

theorem C5_witness :
    (limiter_allow 0 "2026-10-12" limFull).1.1 = false ∧
    (limiter_allow 0 "2026-10-12" limFull).1.2.reason = some "daily_cap" ∧
    countAllowed (runLimiter limiterInit
      (((1000000 : ℚ) :: [1000001]).map (fun n => (n, "d")))).1 ≤ MAX_CALLS_PER_DAY ∧
    limiter_allow 7 "d" limiterInit
      = limiter_allow 7 "d" { last_call_ts := 0, day_key := some "d", day_calls := 0 } := by
  have hfull := (C5_daily_cap limFull "2026-10-12" 0 []).2.1 rfl (le_refl _)
  refine ⟨hfull.1, hfull.2, ?_, ?_⟩
  · exact (C5_daily_cap limiterInit "d" 1000000 [1000001]).2.2.1 (by simp [limiterInit])
  · exact (C5_daily_cap limiterInit "d" 7 []).2.2.2 (by simp [limiterInit])

/-! ## Cache and fetch lemmas -/

theorem cache_get_of_row (c : Cache) (now : ℚ) (q : String) (l : ℕ)
    (row : CacheRow) (data : ResultDoc)
    (hr : c (cache_key q l) = some row) (hp : row.payload = some data) :
    cache_get c now q l
      = some { k := cache_key q l, ts := row.ts, age := ⌊now⌋ - row.ts,
               data := hitTag data (⌊now⌋ - row.ts) } := by
  simp only [cache_get, hr, hp]

theorem cache_get_no_row (c : Cache) (now : ℚ) (q : String) (l : ℕ)
    (hr : c (cache_key q l) = none) :
    cache_get c now q l = none := by
  simp only [cache_get, hr]

theorem cache_get_corrupt (c : Cache) (now : ℚ) (q : String) (l : ℕ) (row : CacheRow)
    (hr : c (cache_key q l) = some row) (hp : row.payload = none) :
    cache_get c now q l = none := by
  simp only [cache_get, hr, hp]

theorem fetch_no_key (now : ℚ) (tk : String) (resp : ℕ → Response)
    (st : SysState) (q : String) (la : ℤ) :
    fetch_ebay_sold false now tk resp st q la = (.error .missingKey, st) := rfl

theorem fetch_fresh (now : ℚ) (tk : String) (resp : ℕ → Response)
    (st : SysState) (q : String) (la : ℤ) (ch : CacheHit)
    (hc : cache_get st.cache now q (clampLimit la) = some ch)
    (hf : ch.age ≤ (TTL_SECONDS_DEFAULT : ℤ)) :
    fetch_ebay_sold true now tk resp st q la = (.ok (freshTag ch.data), st) := by
  simp only [fetch_ebay_sold, Bool.not_true, hc]
  rw [if_neg (by simp), if_pos hf]

theorem fetch_stale_branch (now : ℚ) (tk : String) (resp : ℕ → Response)
    (st : SysState) (q : String) (la : ℤ) (ch : CacheHit)
    (hc : cache_get st.cache now q (clampLimit la) = some ch)
    (hf : ¬ ch.age ≤ (TTL_SECONDS_DEFAULT : ℤ)) :
    fetch_ebay_sold true now tk resp st q la
      = fetchRefresh now tk resp st q (clampLimit la) (some ch) := by
  simp only [fetch_ebay_sold, Bool.not_true, hc]
  rw [if_neg (by simp), if_neg hf]

theorem fetch_miss_branch (now : ℚ) (tk : String) (resp : ℕ → Response)
    (st : SysState) (q : String) (la : ℤ)
    (hc : cache_get st.cache now q (clampLimit la) = none) :
    fetch_ebay_sold true now tk resp st q la
      = fetchRefresh now tk resp st q (clampLimit la) none := by
  simp only [fetch_ebay_sold, Bool.not_true, hc]
  rw [if_neg (by simp)]

theorem fetchRefresh_denied_some (now : ℚ) (tk : String) (resp : ℕ → Response)
    (st : SysState) (q : String) (lim : ℕ) (ch : CacheHit) (ld : LimDbg) (l2 : LimiterState)
    (hl : limiter_allow now tk st.limiter = ((false, ld), l2)) :
    fetchRefresh now tk resp st q lim (some ch)
      = (.ok (staleLimTag ch.data ld), { st with limiter := l2 }) := by
  simp only [fetchRefresh, hl]
  rfl

theorem fetchRefresh_denied_none (now : ℚ) (tk : String) (resp : ℕ → Response)
    (st : SysState) (q : String) (lim : ℕ) (ld : LimDbg) (l2 : LimiterState)
    (hl : limiter_allow now tk st.limiter = ((false, ld), l2)) :
    fetchRefresh now tk resp st q lim none
      = (.error (.rateLimited ld), { st with limiter := l2 }) := by
  simp only [fetchRefresh, hl]
  rfl

theorem fetchRefresh_success (now : ℚ) (tk : String) (resp : ℕ → Response)
    (st : SysState) (q : String) (lim : ℕ) (cached : Option CacheHit)
    (ld : LimDbg) (l2 : LimiterState) (comps : List Comp) (dbg : SerpDbg)
    (hl : limiter_allow now tk st.limiter = ((true, ld), l2))
    (hs : serpapi_call_sold resp q lim = .ok (comps, dbg)) :
    fetchRefresh now tk resp st q lim cached
      = (.ok (missOut comps dbg),
         { cache := cache_set st.cache now q lim (missOut comps dbg), limiter := l2 }) := by
  simp only [fetchRefresh, hl, hs]
  rfl

theorem fetchRefresh_fail_some (now : ℚ) (tk : String) (resp : ℕ → Response)
    (st : SysState) (q : String) (lim : ℕ) (ch : CacheHit)
    (ld : LimDbg) (l2 : LimiterState) (u : UpErr)
    (hl : limiter_allow now tk st.limiter = ((true, ld), l2))
    (hs : serpapi_call_sold resp q lim = .error u) :
    fetchRefresh now tk resp st q lim (some ch)
      = (.ok (staleFailTag ch.data u), { st with limiter := l2 }) := by
  simp only [fetchRefresh, hl, hs]
  rfl

theorem fetchRefresh_fail_none (now : ℚ) (tk : String) (resp : ℕ → Response)
    (st : SysState) (q : String) (lim : ℕ)
    (ld : LimDbg) (l2 : LimiterState) (u : UpErr)
    (hl : limiter_allow now tk st.limiter = ((true, ld), l2))
    (hs : serpapi_call_sold resp q lim = .error u) :
    fetchRefresh now tk resp st q lim none
      = (.error (.upstream u), { st with limiter := l2 }) := by
  simp only [fetchRefresh, hl, hs]
  rfl

/-- Claim C2: a cached entry aged at most `freshTTL` (21600 s) is served
fresh — tagged cache=HIT, stale=false, payload items unchanged, with the
global state untouched and the result independent of the limiter state
and of the network; and an entry older than `freshTTL` is never returned
with the fresh tagging. -/
theorem C2_fresh_ttl (now : ℚ) (tk : String) (resp respB : ℕ → Response)
    (c : Cache) (L LB : LimiterState) (q : String) (la : ℤ)
    (row : CacheRow) (data : ResultDoc)
    (hr : c (cache_key q (clampLimit la)) = some row)
    (hp : row.payload = some data) :
    (⌊now⌋ - row.ts ≤ (TTL_SECONDS_DEFAULT : ℤ) →
      fetch_ebay_sold true now tk resp ⟨c, L⟩ q la
        = (.ok (freshTag (hitTag data (⌊now⌋ - row.ts))), ⟨c, L⟩) ∧
      (freshTag (hitTag data (⌊now⌋ - row.ts))).items = data.items ∧
      (freshTag (hitTag data (⌊now⌋ - row.ts))).dbg.cache = some "HIT" ∧
      (freshTag (hitTag data (⌊now⌋ - row.ts))).dbg.stale = some false ∧
      (fetch_ebay_sold true now tk resp ⟨c, L⟩ q la).1
        = (fetch_ebay_sold true now tk respB ⟨c, LB⟩ q la).1) ∧
    ((TTL_SECONDS_DEFAULT : ℤ) < ⌊now⌋ - row.ts →
      ∀ d, (fetch_ebay_sold true now tk resp ⟨c, L⟩ q la).1 = .ok d →
        ¬(d.dbg.cache = some "HIT" ∧ d.dbg.stale = some false)) := by
  have hch := cache_get_of_row c now q (clampLimit la) row data hr hp
  constructor
  · intro hage
    have h1 := fetch_fresh now tk resp ⟨c, L⟩ q la _ hch hage
    have h2 := fetch_fresh now tk respB ⟨c, LB⟩ q la _ hch hage
    exact ⟨h1, rfl, rfl, rfl, by rw [h1, h2]⟩
  · intro hage d hok
    have hst := fetch_stale_branch now tk resp ⟨c, L⟩ q la _ hch (not_le.mpr hage)
    rw [hst] at hok
    rcases hl : limiter_allow now tk L with ⟨⟨a, ld⟩, l2⟩
    cases a
    · rw [fetchRefresh_denied_some now tk resp ⟨c, L⟩ q (clampLimit la) _ ld l2 hl] at hok
      have hd := Except.ok.inj hok
      subst hd
      simp [staleLimTag, ResultDoc.dbg]
    · rcases hs : serpapi_call_sold resp q (clampLimit la) with u | ⟨comps, dbg⟩
      · rw [fetchRefresh_fail_some now tk resp ⟨c, L⟩ q (clampLimit la) _ ld l2 u hl hs] at hok
        have hd := Except.ok.inj hok
        subst hd
        simp [staleFailTag, ResultDoc.dbg]
      · rw [fetchRefresh_success now tk resp ⟨c, L⟩ q (clampLimit la) _ ld l2 comps dbg hl hs]
          at hok
        have hd := Except.ok.inj hok
        subst hd
        simp [missOut, ResultDoc.dbg]

theorem C2_witness :
    fetch_ebay_sold true 100 "d" resp500 ⟨cacheAll, limiterInit⟩ "q" 50
      = (.ok (freshTag (hitTag doc0 (⌊(100 : ℚ)⌋ - row0.ts))), ⟨cacheAll, limiterInit⟩) ∧
    (freshTag (hitTag doc0 (⌊(100 : ℚ)⌋ - row0.ts))).dbg.cache = some "HIT" ∧
    (freshTag (hitTag doc0 (⌊(100 : ℚ)⌋ - row0.ts))).dbg.stale = some false := by
  have h := (C2_fresh_ttl 100 "d" resp500 resp500 cacheAll limiterInit limiterInit
    "q" 50 row0 doc0 rfl rfl).1 (by norm_num [row0, TTL_SECONDS_DEFAULT])
  exact ⟨h.1, h.2.2.1, h.2.2.2.1⟩

/-- Claim C3 fails as stated: on the limiter-denied stale fallback the
debug block reports `ttl_seconds = 21600` (the fresh TTL label), not the
fallback label 86400 the claim names. -/
theorem C3_counterexample :
    (fetch_ebay_sold true 100000 "2026-10-12" resp500 ⟨cacheAll, limFull⟩ "q" 50).1.map
        (fun d => (d.dbg.stale, d.dbg.ttl_seconds, d.dbg.refresh_skipped.map (fun l => l.reason)))
      = .ok (some true, some 21600, some (some "daily_cap")) ∧
    TTL_SECONDS_FALLBACK = 86400 ∧ (some 21600 : Option ℕ) ≠ some 86400 := by
  exact ⟨by decide, rfl, by decide⟩

/-- Claim C3, amended: with a cached entry past the fresh TTL and a
denying limiter, fetch returns the cached payload tagged stale=true with
the limiter detail under `refresh_skipped` — but the TTL reported in the
debug block is the fresh TTL label 21600 s, not the fallback label
86400 s (which the code only uses on the upstream-failure fallback). -/
theorem C3_amended (now : ℚ) (tk : String) (resp : ℕ → Response) (c : Cache)
    (L : LimiterState) (q : String) (la : ℤ) (ch : CacheHit) (ld : LimDbg)
    (hc : cache_get c now q (clampLimit la) = some ch)
    (hf : ¬ ch.age ≤ (TTL_SECONDS_DEFAULT : ℤ))
    (hl : (limiter_allow now tk L).1 = (false, ld)) :
    (fetch_ebay_sold true now tk resp ⟨c, L⟩ q la).1 = .ok (staleLimTag ch.data ld) ∧
    (staleLimTag ch.data ld).dbg.stale = some true ∧
    (staleLimTag ch.data ld).dbg.refresh_skipped = some ld ∧
    (staleLimTag ch.data ld).dbg.ttl_seconds = some TTL_SECONDS_DEFAULT ∧
    TTL_SECONDS_DEFAULT = 21600 ∧ TTL_SECONDS_FALLBACK = 86400 := by
  have hl2 : limiter_allow now tk L = ((false, ld), (limiter_allow now tk L).2) := by
    rw [← hl]
  rw [fetch_stale_branch now tk resp ⟨c, L⟩ q la ch hc hf,
    fetchRefresh_denied_some now tk resp ⟨c, L⟩ q (clampLimit la) ch ld _ hl2]
  exact ⟨rfl, rfl, rfl, rfl, rfl, rfl⟩

theorem C3_witness :
    (fetch_ebay_sold true 100000 "2026-10-12" resp500 ⟨cacheAll, limFull⟩ "q" 50).1
      = .ok (staleLimTag (hitTag doc0 (⌊(100000 : ℚ)⌋ - row0.ts))
          { reason := some "daily_cap", day_calls := some 200, day_cap := some 200 }) ∧
    (staleLimTag (hitTag doc0 (⌊(100000 : ℚ)⌋ - row0.ts))
        { reason := some "daily_cap", day_calls := some 200,
          day_cap := some 200 }).dbg.ttl_seconds = some TTL_SECONDS_DEFAULT := by
  have h := C3_amended 100000 "2026-10-12" resp500 cacheAll limFull "q" 50
    { k := cache_key "q" (clampLimit 50), ts := row0.ts, age := ⌊(100000 : ℚ)⌋ - row0.ts,
      data := hitTag doc0 (⌊(100000 : ℚ)⌋ - row0.ts) }
    { reason := some "daily_cap", day_calls := some 200, day_cap := some 200 }
    (cache_get_of_row cacheAll 100000 "q" (clampLimit 50) row0 doc0 rfl rfl)
    (by norm_num [row0, TTL_SECONDS_DEFAULT])
    (by decide)
  exact ⟨h.1, h.2.2.2.1⟩

/-- Claim C1 fails as stated: with no API key configured, `fetch` raises
the 400 `missing_serpapi_key` failure even though a (parseable) cached
entry exists for the query — a failure that is neither the 429
rate-limit error nor the 502 upstream error. -/
theorem C1_counterexample :
    (fetch_ebay_sold false 0 "d" resp500 ⟨cacheAll, limiterInit⟩ "q" 50).1
      = .error .missingKey ∧
    (cache_get cacheAll 0 "q" (clampLimit 50)).isSome = true ∧
    FetchErr.status .missingKey = 400 ∧
    FetchErr.status .missingKey ≠ 429 ∧ FetchErr.status .missingKey ≠ 502 := by
  exact ⟨rfl, by decide, rfl, by decide, by decide⟩

/-- Claim C1, amended with the configured-key precondition: given an API
key, `fetch` fails only when no usable cached entry exists and either
the limiter denied (429, carrying the limiter detail) or the upstream
call failed terminally (502, carrying the upstream error); whenever a
usable cached entry exists, `fetch` does not fail: past the fresh TTL a
denied limiter yields the stale-tagged payload, and an upstream failure
yields the stale-tagged payload with the failure detail attached. -/
theorem C1_amended (now : ℚ) (tk : String) (resp : ℕ → Response) (c : Cache)
    (L : LimiterState) (q : String) (la : ℤ) :
    (∀ e, (fetch_ebay_sold true now tk resp ⟨c, L⟩ q la).1 = .error e →
      cache_get c now q (clampLimit la) = none ∧
      ((∃ ld, e = .rateLimited ld ∧ FetchErr.status e = 429 ∧
          (limiter_allow now tk L).1 = (false, ld)) ∨
       (∃ u, e = .upstream u ∧ FetchErr.status e = 502 ∧
          serpapi_call_sold resp q (clampLimit la) = .error u))) ∧
    (∀ ch, cache_get c now q (clampLimit la) = some ch →
      ∃ d, (fetch_ebay_sold true now tk resp ⟨c, L⟩ q la).1 = .ok d) ∧
    (∀ ch ld, cache_get c now q (clampLimit la) = some ch →
      ¬ ch.age ≤ (TTL_SECONDS_DEFAULT : ℤ) →
      (limiter_allow now tk L).1 = (false, ld) →
      (fetch_ebay_sold true now tk resp ⟨c, L⟩ q la).1 = .ok (staleLimTag ch.data ld) ∧
      (staleLimTag ch.data ld).dbg.stale = some true) ∧
    (∀ ch u, cache_get c now q (clampLimit la) = some ch →
      ¬ ch.age ≤ (TTL_SECONDS_DEFAULT : ℤ) →
      (limiter_allow now tk L).1.1 = true →
      serpapi_call_sold resp q (clampLimit la) = .error u →
      (fetch_ebay_sold true now tk resp ⟨c, L⟩ q la).1 = .ok (staleFailTag ch.data u) ∧
      (staleFailTag ch.data u).dbg.stale = some true ∧
      (staleFailTag ch.data u).dbg.refresh_failed = some u) := by
  refine ⟨?_, ?_, ?_, ?_⟩
  · intro e he
    rcases hc : cache_get c now q (clampLimit la) with _ | ch
    · rw [fetch_miss_branch now tk resp ⟨c, L⟩ q la hc] at he
      rcases hl : limiter_allow now tk L with ⟨⟨a, ld⟩, l2⟩
      cases a
      · rw [fetchRefresh_denied_none now tk resp ⟨c, L⟩ q (clampLimit la) ld l2 hl] at he
        have hd := Except.error.inj he
        subst hd
        exact ⟨rfl, .inl ⟨ld, rfl, rfl, rfl⟩⟩
      · rcases hs : serpapi_call_sold resp q (clampLimit la) with u | p
        · rw [fetchRefresh_fail_none now tk resp ⟨c, L⟩ q (clampLimit la) ld l2 u hl hs] at he
          have hd := Except.error.inj he
          subst hd
          exact ⟨rfl, .inr ⟨u, rfl, rfl, rfl⟩⟩
        · rw [fetchRefresh_success now tk resp ⟨c, L⟩ q (clampLimit la) none ld l2 p.1 p.2
            hl (by rw [hs])] at he
          exact absurd he (by simp)
    · by_cases hf : ch.age ≤ (TTL_SECONDS_DEFAULT : ℤ)
      · rw [fetch_fresh now tk resp ⟨c, L⟩ q la ch hc hf] at he
        exact absurd he (by simp)
      · rw [fetch_stale_branch now tk resp ⟨c, L⟩ q la ch hc hf] at he
        rcases hl : limiter_allow now tk L with ⟨⟨a, ld⟩, l2⟩
        cases a
        · rw [fetchRefresh_denied_some now tk resp ⟨c, L⟩ q (clampLimit la) ch ld l2 hl] at he
          exact absurd he (by simp)
        · rcases hs : serpapi_call_sold resp q (clampLimit la) with u | p
          · rw [fetchRefresh_fail_some now tk resp ⟨c, L⟩ q (clampLimit la) ch ld l2 u hl hs]
              at he
            exact absurd he (by simp)
          · rw [fetchRefresh_success now tk resp ⟨c, L⟩ q (clampLimit la) (some ch) ld l2
              p.1 p.2 hl (by rw [hs])] at he
            exact absurd he (by simp)
  · intro ch hc
    by_cases hf : ch.age ≤ (TTL_SECONDS_DEFAULT : ℤ)
    · exact ⟨freshTag ch.data, by rw [fetch_fresh now tk resp ⟨c, L⟩ q la ch hc hf]⟩
    · rw [fetch_stale_branch now tk resp ⟨c, L⟩ q la ch hc hf]
      rcases hl : limiter_allow now tk L with ⟨⟨a, ld⟩, l2⟩
      cases a
      · exact ⟨staleLimTag ch.data ld,
          by rw [fetchRefresh_denied_some now tk resp ⟨c, L⟩ q (clampLimit la) ch ld l2 hl]⟩
      · rcases hs : serpapi_call_sold resp q (clampLimit la) with u | p
        · exact ⟨staleFailTag ch.data u,
            by rw [fetchRefresh_fail_some now tk resp ⟨c, L⟩ q (clampLimit la) ch ld l2 u hl hs]⟩
        · exact ⟨missOut p.1 p.2,
            by rw [fetchRefresh_success now tk resp ⟨c, L⟩ q (clampLimit la) (some ch) ld l2
              p.1 p.2 hl (by rw [hs])]⟩
  · intro ch ld hc hf hl
    have hl2 : limiter_allow now tk L = ((false, ld), (limiter_allow now tk L).2) := by
      rw [← hl]
    rw [fetch_stale_branch now tk resp ⟨c, L⟩ q la ch hc hf,
      fetchRefresh_denied_some now tk resp ⟨c, L⟩ q (clampLimit la) ch ld _ hl2]
    exact ⟨rfl, rfl⟩
  · intro ch u hc hf ha hs
    have hl2 : limiter_allow now tk L
        = ((true, (limiter_allow now tk L).1.2), (limiter_allow now tk L).2) := by
      rw [← ha]
    rw [fetch_stale_branch now tk resp ⟨c, L⟩ q la ch hc hf,
      fetchRefresh_fail_some now tk resp ⟨c, L⟩ q (clampLimit la) ch _ _ u hl2 hs]
    exact ⟨rfl, rfl, rfl⟩

theorem C1_witness :
    (fetch_ebay_sold true 100000 "d" resp500 ⟨cacheAll, limiterInit⟩ "q" 50).1
      = .ok (staleFailTag (hitTag doc0 (⌊(100000 : ℚ)⌋ - row0.ts))
          (.failed { attempt := 3, status_code := 500, ebay_url := "N/A" })) ∧
    (staleFailTag (hitTag doc0 (⌊(100000 : ℚ)⌋ - row0.ts))
        (.failed { attempt := 3, status_code := 500, ebay_url := "N/A" })).dbg.refresh_failed
      = some (.failed { attempt := 3, status_code := 500, ebay_url := "N/A" }) := by
  have hreset := limiter_reset_new "d" limiterInit (by simp [limiterInit])
  have ha : (limiter_allow 100000 "d" limiterInit).1.1 = true := by
    rw [limiter_allow_allowed 100000 "d" limiterInit
      (by rw [hreset]; norm_num [MAX_CALLS_PER_DAY])
      (by rw [hreset]; norm_num [MIN_SECONDS_BETWEEN_CALLS])]
  have h := (C1_amended 100000 "d" resp500 cacheAll limiterInit "q" 50).2.2.2
    { k := cache_key "q" (clampLimit 50), ts := row0.ts, age := ⌊(100000 : ℚ)⌋ - row0.ts,
      data := hitTag doc0 (⌊(100000 : ℚ)⌋ - row0.ts) }
    (.failed { attempt := 3, status_code := 500, ebay_url := "N/A" })
    (cache_get_of_row cacheAll 100000 "q" (clampLimit 50) row0 doc0 rfl rfl)
    (by norm_num [row0, TTL_SECONDS_DEFAULT])
    ha
    (by decide)
  exact ⟨h.1, h.2.2⟩

theorem serpOkB_true (resp : ℕ → Response) (q : String) (lim : ℕ)
    (h : serpOkB resp q lim = true) :
    ∃ p, serpapi_call_sold resp q lim = .ok p := by
  rcases hs : serpapi_call_sold resp q lim with u | p
  · rw [serpOkB, hs] at h
    exact absurd h (by simp)
  · exact ⟨p, rfl⟩

/-- The cache after a fetch: unchanged unless the invocation performed a
successful upstream call, in which case it is exactly the upsert of the
fresh result at the fingerprint. -/
theorem fetch_cache_state (hasKey : Bool) (now : ℚ) (tk : String) (resp : ℕ → Response)
    (st : SysState) (q : String) (la : ℤ) :
    (upstreamSuccessB hasKey now tk resp st q la = false →
      (fetch_ebay_sold hasKey now tk resp st q la).2.cache = st.cache) ∧
    (∀ comps dbg, upstreamSuccessB hasKey now tk resp st q la = true →
      serpapi_call_sold resp q (clampLimit la) = .ok (comps, dbg) →
      (fetch_ebay_sold hasKey now tk resp st q la).2.cache
        = cache_set st.cache now q (clampLimit la) (missOut comps dbg)) := by
  cases hasKey
  · exact ⟨fun _ => rfl, fun comps dbg hT _ => absurd hT (by simp [upstreamSuccessB])⟩
  · rcases hc : cache_get st.cache now q (clampLimit la) with _ | ch
    · have hfh : freshHitB st.cache now q (clampLimit la) = false := by
        simp [freshHitB, hc]
      rcases hl : limiter_allow now tk st.limiter with ⟨⟨a, ld⟩, l2⟩
      cases a
      · constructor
        · intro _
          rw [fetch_miss_branch now tk resp st q la hc,
            fetchRefresh_denied_none now tk resp st q (clampLimit la) ld l2 hl]
        · intro comps dbg hT _
          exact absurd hT (by simp [upstreamSuccessB, hl])
      · rcases hs : serpapi_call_sold resp q (clampLimit la) with u | p
        · constructor
          · intro _
            rw [fetch_miss_branch now tk resp st q la hc,
              fetchRefresh_fail_none now tk resp st q (clampLimit la) ld l2 u hl hs]
          · intro comps dbg _ hbad
            exact absurd hbad (by simp)
        · rcases p with ⟨pc, pd⟩
          constructor
          · intro hT
            exact absurd hT
              (by simp [upstreamSuccessB, hfh, hl, serpOkB, hs])
          · intro comps dbg _ hok
            obtain ⟨h1, h2⟩ := Prod.mk.injEq pc pd comps dbg ▸ Except.ok.inj hok
            subst h1; subst h2
            rw [fetch_miss_branch now tk resp st q la hc,
              fetchRefresh_success now tk resp st q (clampLimit la) none ld l2 pc pd hl hs]
    · by_cases hf : ch.age ≤ (TTL_SECONDS_DEFAULT : ℤ)
      · constructor
        · intro _
          rw [fetch_fresh now tk resp st q la ch hc hf]
        · intro comps dbg hT _
          exact absurd hT (by simp [upstreamSuccessB, freshHitB, hc, hf])
      · have hfh : freshHitB st.cache now q (clampLimit la) = false := by
          simp [freshHitB, hc, hf]
        rcases hl : limiter_allow now tk st.limiter with ⟨⟨a, ld⟩, l2⟩
        cases a
        · constructor
          · intro _
            rw [fetch_stale_branch now tk resp st q la ch hc hf,
              fetchRefresh_denied_some now tk resp st q (clampLimit la) ch ld l2 hl]
          · intro comps dbg hT _
            exact absurd hT (by simp [upstreamSuccessB, hl])
        · rcases hs : serpapi_call_sold resp q (clampLimit la) with u | p
          · constructor
            · intro _
              rw [fetch_stale_branch now tk resp st q la ch hc hf,
                fetchRefresh_fail_some now tk resp st q (clampLimit la) ch ld l2 u hl hs]
            · intro comps dbg _ hbad
              exact absurd hbad (by simp)
          · rcases p with ⟨pc, pd⟩
            constructor
            · intro hT
              exact absurd hT
                (by simp [upstreamSuccessB, hfh, hl, serpOkB, hs])
            · intro comps dbg _ hok
              obtain ⟨h1, h2⟩ := Prod.mk.injEq pc pd comps dbg ▸ Except.ok.inj hok
              subst h1; subst h2
              rw [fetch_stale_branch now tk resp st q la ch hc hf,
                fetchRefresh_success now tk resp st q (clampLimit la) (some ch) ld l2
                  pc pd hl hs]

/-- Claim C9: the cache is created/overwritten only by a successful
upstream call (at exactly the request's fingerprint), every other fetch
outcome leaves the table untouched, no fetch ever deletes an entry, and
the administrative clear-all empties the table. -/
theorem C9_cache_lifecycle (hasKey : Bool) (now : ℚ) (tk : String) (resp : ℕ → Response)
    (st : SysState) (q : String) (la : ℤ) :
    (upstreamSuccessB hasKey now tk resp st q la = false →
      (fetch_ebay_sold hasKey now tk resp st q la).2.cache = st.cache) ∧
    (∀ comps dbg, upstreamSuccessB hasKey now tk resp st q la = true →
      serpapi_call_sold resp q (clampLimit la) = .ok (comps, dbg) →
      (fetch_ebay_sold hasKey now tk resp st q la).2.cache
        = cache_set st.cache now q (clampLimit la) (missOut comps dbg)) ∧
    (∀ k, k ≠ cache_key q (clampLimit la) →
      (fetch_ebay_sold hasKey now tk resp st q la).2.cache k = st.cache k) ∧
    (∀ k r, st.cache k = some r →
      ∃ r2, (fetch_ebay_sold hasKey now tk resp st q la).2.cache k = some r2) ∧
    (∀ k, cache_clear k = none) := by
  obtain ⟨H1, H2⟩ := fetch_cache_state hasKey now tk resp st q la
  refine ⟨H1, H2, ?_, ?_, fun k => rfl⟩
  · intro k hk
    cases hT : upstreamSuccessB hasKey now tk resp st q la
    · rw [H1 hT]
    · have hchain := hT
      simp only [upstreamSuccessB, Bool.and_eq_true] at hchain
      obtain ⟨⟨comps, dbg⟩, hs⟩ := serpOkB_true resp q (clampLimit la) hchain.2
      rw [H2 comps dbg hT hs]
      simp [cache_set, hk]
  · intro k r hkr
    cases hT : upstreamSuccessB hasKey now tk resp st q la
    · exact ⟨r, by rw [H1 hT]; exact hkr⟩
    · have hchain := hT
      simp only [upstreamSuccessB, Bool.and_eq_true] at hchain
      obtain ⟨⟨comps, dbg⟩, hs⟩ := serpOkB_true resp q (clampLimit la) hchain.2
      by_cases hk : k = cache_key q (clampLimit la)
      · exact ⟨{ ts := ⌊now⌋, payload := some (missOut comps dbg) },
          by rw [H2 comps dbg hT hs]; simp [cache_set, hk]⟩
      · exact ⟨r, by rw [H2 comps dbg hT hs]; simpa [cache_set, hk] using hkr⟩

set_option maxRecDepth 8000 in
theorem C9_witness :
    (fetch_ebay_sold true 1 "d" resp500 st0 "q" 50).2.cache = st0.cache ∧
    (fetch_ebay_sold true 1000000 "d" resp200 st0 "q" 5).2.cache
      = cache_set st0.cache 1000000 "q" (clampLimit 5)
          (missOut
            [{ title := "Vintage lamp", price_eur := 42,
               url := "https://www.ebay.nl/itm/1", condition := "Onbekend",
               source := "ebay_sold_serpapi" }]
            { count_raw := 2, count_eur := 1,
              serpapi_debug := { attempt := 1, status_code := 200,
                                 ebay_url := "https://www.ebay.nl/sch/q" } }) ∧
    cache_clear "any" = none := by
  have hreset := limiter_reset_new "d" limiterInit (by simp [limiterInit])
  refine ⟨?_, ?_, (C9_cache_lifecycle true 1 "d" resp500 st0 "q" 50).2.2.2.2 "any"⟩
  · have hL : (limiter_allow 1 "d" limiterInit).1.1 = false := by
      rw [limiter_allow_min_interval 1 "d" limiterInit
        (by rw [hreset]; norm_num [MAX_CALLS_PER_DAY])
        (by rw [hreset]; norm_num [MIN_SECONDS_BETWEEN_CALLS])]
    exact (C9_cache_lifecycle true 1 "d" resp500 st0 "q" 50).1
      (by simp [upstreamSuccessB, st0, hL])
  · have hL : (limiter_allow 1000000 "d" limiterInit).1.1 = true := by
      rw [limiter_allow_allowed 1000000 "d" limiterInit
        (by rw [hreset]; norm_num [MAX_CALLS_PER_DAY])
        (by rw [hreset]; norm_num [MIN_SECONDS_BETWEEN_CALLS])]
    exact (C9_cache_lifecycle true 1000000 "d" resp200 st0 "q" 5).2.1 _ _
      (by simp [upstreamSuccessB, st0, hL, freshHitB, serpOkB]
          decide)
      (by decide)

theorem fetch_limiter_state (now : ℚ) (tk : String) (resp : ℕ → Response)
    (st : SysState) (q : String) (la : ℤ)
    (hm : freshHitB st.cache now q (clampLimit la) = false) :
    (fetch_ebay_sold true now tk resp st q la).2.limiter
      = (limiter_allow now tk st.limiter).2 := by
  rcases hc : cache_get st.cache now q (clampLimit la) with _ | ch
  · rcases hl : limiter_allow now tk st.limiter with ⟨⟨a, ld⟩, l2⟩
    cases a
    · rw [fetch_miss_branch now tk resp st q la hc,
        fetchRefresh_denied_none now tk resp st q (clampLimit la) ld l2 hl]
    · rcases hs : serpapi_call_sold resp q (clampLimit la) with u | p
      · rw [fetch_miss_branch now tk resp st q la hc,
          fetchRefresh_fail_none now tk resp st q (clampLimit la) ld l2 u hl hs]
      · rcases p with ⟨comps, dbg⟩
        rw [fetch_miss_branch now tk resp st q la hc,
          fetchRefresh_success now tk resp st q (clampLimit la) none ld l2 comps dbg hl hs]
  · have hf : ¬ ch.age ≤ (TTL_SECONDS_DEFAULT : ℤ) := by
      simp [freshHitB, hc] at hm
      exact not_le.mpr hm
    rcases hl : limiter_allow now tk st.limiter with ⟨⟨a, ld⟩, l2⟩
    cases a
    · rw [fetch_stale_branch now tk resp st q la ch hc hf,
        fetchRefresh_denied_some now tk resp st q (clampLimit la) ch ld l2 hl]
    · rcases hs : serpapi_call_sold resp q (clampLimit la) with u | p
      · rw [fetch_stale_branch now tk resp st q la ch hc hf,
          fetchRefresh_fail_some now tk resp st q (clampLimit la) ch ld l2 u hl hs]
      · rcases p with ⟨comps, dbg⟩
        rw [fetch_stale_branch now tk resp st q la ch hc hf,
          fetchRefresh_success now tk resp st q (clampLimit la) (some ch) ld l2
            comps dbg hl hs]

/-- Claim C10 (implicit): whenever the fresh-cache branch does not fire,
the limiter state after `fetch` is exactly the state the limiter
committed before any upstream traffic — for every network behaviour, so
an upstream failure never rolls the commitment back: a permitted call
records `lastCallAt = now` and consumes one daily-cap slot even when the
upstream call then fails. -/
theorem C10_limiter_commits (now : ℚ) (tk : String) (resp : ℕ → Response)
    (st : SysState) (q : String) (la : ℤ)
    (hm : freshHitB st.cache now q (clampLimit la) = false) :
    (fetch_ebay_sold true now tk resp st q la).2.limiter
      = (limiter_allow now tk st.limiter).2 ∧
    (∀ respB, (fetch_ebay_sold true now tk respB st q la).2.limiter
      = (fetch_ebay_sold true now tk resp st q la).2.limiter) ∧
    ((limiter_allow now tk st.limiter).1.1 = true →
      (limiter_allow now tk st.limiter).2
        = { limiter_reset tk st.limiter with
            last_call_ts := now,
            day_calls := (limiter_reset tk st.limiter).day_calls + 1 }) ∧
    (∀ u, (limiter_allow now tk st.limiter).1.1 = true →
      serpapi_call_sold resp q (clampLimit la) = .error u →
      (fetch_ebay_sold true now tk resp st q la).2.limiter.day_calls
        = (limiter_reset tk st.limiter).day_calls + 1) := by
  refine ⟨fetch_limiter_state now tk resp st q la hm,
    fun respB => by
      rw [fetch_limiter_state now tk respB st q la hm,
        fetch_limiter_state now tk resp st q la hm],
    fun ha => limiter_allow_commit now tk st.limiter ha,
    fun u ha _ => by
      rw [fetch_limiter_state now tk resp st q la hm,
        limiter_allow_commit now tk st.limiter ha]⟩

theorem C10_witness :
    (fetch_ebay_sold true 1000000 "d" resp500 st0 "q" 50).2.limiter
      = (limiter_allow 1000000 "d" limiterInit).2 ∧
    (fetch_ebay_sold true 1000000 "d" resp500 st0 "q" 50).2.limiter.day_calls
      = (limiter_reset "d" limiterInit).day_calls + 1 := by
  have hreset := limiter_reset_new "d" limiterInit (by simp [limiterInit])
  have hth := C10_limiter_commits 1000000 "d" resp500 st0 "q" 50 rfl
  have ha : (limiter_allow 1000000 "d" limiterInit).1.1 = true := by
    rw [limiter_allow_allowed 1000000 "d" limiterInit
      (by rw [hreset]; norm_num [MAX_CALLS_PER_DAY])
      (by rw [hreset]; norm_num [MIN_SECONDS_BETWEEN_CALLS])]
  exact ⟨hth.1, hth.2.2.2 (.failed { attempt := 3, status_code := 500, ebay_url := "N/A" })
    ha (by decide)⟩

/-- Claim C6: the upstream call issues at most three attempts; a non-5xx
response (4xx included) is never retried; each 5xx attempt sleeps the
backoff 2 s, 4 s, 8 s in order before giving up; and a final non-200
status or an explicit error field in the body fails with the 502
upstream error carrying the last attempt's debug snapshot. -/
theorem C6_retry_backoff (resp : ℕ → Response) (q : String) (lim : ℕ) :
    ((resp 1).status_code < 500 →
      runAttempts resp = (resp 1, mkAttemptDbg 1 (resp 1), [])) ∧
    (500 ≤ (resp 1).status_code → (resp 2).status_code < 500 →
      runAttempts resp = (resp 2, mkAttemptDbg 2 (resp 2), [2])) ∧
    (500 ≤ (resp 1).status_code → 500 ≤ (resp 2).status_code →
      (resp 3).status_code < 500 →
      runAttempts resp = (resp 3, mkAttemptDbg 3 (resp 3), [2, 4])) ∧
    (500 ≤ (resp 1).status_code → 500 ≤ (resp 2).status_code →
      500 ≤ (resp 3).status_code →
      runAttempts resp = (resp 3, mkAttemptDbg 3 (resp 3), [2, 4, 8])) ∧
    ((runAttempts resp).1.status_code ≠ 200 →
      serpapi_call_sold resp q lim = .error (.failed (runAttempts resp).2.1)) ∧
    (∀ msg, (runAttempts resp).1.status_code = 200 →
      (runAttempts resp).1.body.error = some msg →
      serpapi_call_sold resp q lim = .error (.errorField msg (runAttempts resp).2.1)) := by
  refine ⟨?_, ?_, ?_, ?_, ?_, ?_⟩
  · intro h1
    simp [runAttempts, retryLoop, not_le.mpr h1]
  · intro h1 h2
    simp [runAttempts, retryLoop, h1, not_le.mpr h2]
  · intro h1 h2 h3
    simp [runAttempts, retryLoop, h1, h2, not_le.mpr h3]
  · intro h1 h2 h3
    simp [runAttempts, retryLoop, h1, h2, h3]
  · intro h
    rcases hr : runAttempts resp with ⟨r, ld, sl⟩
    rw [hr] at h
    simp only [serpapi_call_sold, hr]
    rw [if_pos h]
  · intro msg h200 herr
    rcases hr : runAttempts resp with ⟨r, ld, sl⟩
    rw [hr] at h200 herr
    have h200x : r.status_code = 200 := h200
    have herrx : r.body.error = some msg := herr
    simp only [serpapi_call_sold, hr]
    rw [if_neg (fun hne => hne h200x), herrx]

theorem C6_witness :
    runAttempts resp500 = (resp500 3, mkAttemptDbg 3 (resp500 3), [2, 4, 8]) ∧
    serpapi_call_sold resp500 "q" 5 = .error (.failed (runAttempts resp500).2.1) ∧
    runAttempts respRecover = (respRecover 2, mkAttemptDbg 2 (respRecover 2), [2]) := by
  exact ⟨(C6_retry_backoff resp500 "q" 5).2.2.2.1 (by decide) (by decide) (by decide),
    (C6_retry_backoff resp500 "q" 5).2.2.2.2.1 (by decide),
    (C6_retry_backoff respRecover "q" 5).2.1 (by decide) (by decide)⟩

set_option maxRecDepth 8000 in
/-- Claim C7, evaluated on the code: an item whose `raw` price text
carries the genuine euro sign U+20AC and no explicit currency field is
dropped by the normalizer, because the substring the source scans for is
the mis-encoded three-character sequence `eurNeedle` (U+00E2 U+201A
U+00AC), not the euro sign; the same item with the mis-encoded sequence
in `raw` is retained (title bounded, default condition filled in), and
an item with a different explicit currency is dropped. -/
theorem C7_currency_filter_evaluation :
    (euroItem.price.getD {}).currency = none ∧
    pyIn "€" (euroItem.price.getD {}).raw = true ∧
    normItem euroItem = none ∧
    eurNeedle ≠ "€" ∧
    normItem mojItem
      = some { title := "Vintage lamp", price_eur := 42,
               url := "https://www.ebay.nl/itm/1", condition := "Onbekend",
               source := "ebay_sold_serpapi" } ∧
    normItem usdItem = none := by
  exact ⟨rfl, by decide, by decide, by decide, by decide, by decide⟩

set_option maxRecDepth 1000000 in
/-- Supporting evidence for the fingerprint claim: at a concrete query,
two different limits hash to different fingerprints (the universal
statement for all queries and limits would amount to collision-freeness
of SHA-256 on the distinct preimages `f"{query}\n{limit}"`, which is
neither provable nor refutable). -/
theorem cache_key_distinct_limits_example : cache_key "q" 1 ≠ cache_key "q" 2 := by
  decide
